import Mathlib

/-!
Verification of the wordReportCheck repository: a shallow embedding of its
parsing, segmentation, scoring-reconciliation and document write-back logic,
with theorems settling the specified behavioural claims.

Sources embedded:
  * src/wordreportcheck/scoring/deepseek_client.py and kimi_client.py
    (`_ensure_scored`, `score_item`, `score_items`, `segment_items_from_content`)
  * src/wordreportcheck/parsers/docx_parser.py
    (`_normalize_label`, `LABEL_MAP`, `_parse_content_items`,
     `_parse_by_template`, `parse_docx_to_report`)
  * src/wordreportcheck/parsers/docx_writer.py
    (`_find_label_row_and_value_cell`, `write_grade_and_date`)

Conventions: Python machine integers are `Int` (arbitrary precision in Python
as well); Python floats are modelled as `Rat`; fallible operations return
`Option`/`Except`. Chinese identifiers from the source are transliterated to
English because Lean rejects CJK identifiers; each definition notes the
original name.
-/

namespace WordReportCheck

/-! ## String helpers shared by the embedding -/

/-- Characters treated as whitespace by Python's `str.strip()` and by the
regex class used in the source (the common cases: ASCII whitespace plus the
no-break and ideographic spaces that appear in these documents). -/
def pyIsSpace (c : Char) : Bool :=
  c = ' ' || c = '\t' || c = '\n' || c = '\r' || c = '\x0b' || c = '\x0c' ||
  c = ' ' || c = '　'

/-- Python `str.strip()` / the source's `_strip` helper (`docx_parser._strip`):
remove leading and trailing whitespace. -/
def pyStrip (s : String) : String :=
  String.mk (((s.toList.dropWhile pyIsSpace).reverse.dropWhile pyIsSpace).reverse)

/-- Substring occurrence over character lists (an empty needle always
occurs, as in Python). -/
def containsSub (s sub : List Char) : Bool :=
  match s with
  | [] => sub.isEmpty
  | _ :: t => sub.isPrefixOf s || containsSub t sub

/-- Python's `sub in s` substring test. -/
def strContains (s sub : String) : Bool :=
  containsSub s.toList sub.toList

/-- Remove every whitespace character, modelling the source's
`re.sub(r"\s+", "", t)` and `"".join(text.split())`. -/
def removePyWs (s : String) : String :=
  String.mk (s.toList.filter (fun c => !pyIsSpace c))

/-- Split a character list at every occurrence of a separator character
(the shape of Python's `text.split("\n")`). -/
def splitOnChar (sep : Char) : List Char → List (List Char)
  | [] => [[]]
  | c :: rest =>
    let r := splitOnChar sep rest
    if c = sep then [] :: r
    else
      match r with
      | [] => [[c]]
      | h :: t => (c :: h) :: t

/-- The lines of a text, split at newline characters. -/
def splitLines (s : String) : List String :=
  (splitOnChar '\n' s.toList).map String.mk

/-- Python `str.replace` over character lists; the fuel argument (the input
length is always enough, since every step consumes at least one character)
keeps the recursion structural. -/
def replaceSubAux (pat rep : List Char) : Nat → List Char → List Char
  | 0, s => s
  | _, [] => []
  | fuel+1, c :: rest =>
    if pat ≠ [] && pat.isPrefixOf (c :: rest) then
      rep ++ replaceSubAux pat rep fuel ((c :: rest).drop pat.length)
    else c :: replaceSubAux pat rep fuel rest

/-- Python `s.replace(pat, rep)` (for a non-empty pattern). -/
def pyReplace (s pat rep : String) : String :=
  String.mk (replaceSubAux pat.toList rep.toList s.toList.length s.toList)

/-! ## A model of decoded JSON / Python values

`json.loads` (and the dict/list shapes the clients handle) produce values of
this shape.  Python `bool` is a subtype of `int`, which matters for the
`isinstance(score, (int, float))` test in `_ensure_scored`; booleans are
therefore treated as the integers 0/1 where they are used numerically. -/

inductive PyVal where
  | vnull
  | vbool (b : Bool)
  | vint (n : Int)
  | vfloat (q : Rat)
  | vstr (s : String)
  | varr (xs : List PyVal)
  | vobj (fields : List (String × PyVal))

/-- Python truthiness of a decoded value. -/
def pyTruthy : PyVal → Bool
  | .vnull => false
  | .vbool b => b
  | .vint n => n != 0
  | .vfloat q => q != 0
  | .vstr s => !s.isEmpty
  | .varr xs => !xs.isEmpty
  | .vobj l => !l.isEmpty

/-- Decimal rendering of a natural number, digit list form; fuel keeps the
recursion structural (the value itself is always enough fuel). -/
def natDigitsAux : Nat → Nat → List Char
  | 0, _ => []
  | _, 0 => []
  | fuel+1, n+1 =>
    natDigitsAux fuel ((n+1) / 10) ++ [Char.ofNat (48 + (n+1) % 10)]

/-- Decimal digit list of a natural number (empty for 0). -/
def natDigits (n : Nat) : List Char := natDigitsAux n n

/-- Python `str()` of an integer. -/
def pyIntRepr (n : Int) : String :=
  if n = 0 then "0"
  else if n < 0 then "-" ++ String.mk (natDigits n.natAbs)
  else String.mk (natDigits n.natAbs)

/-- Rendering of a float value (floats are modelled as rationals, so the
exact decimal formatting of Python floats is approximated by a
numerator/denominator rendering; only its non-emptiness matters here). -/
def pyFloatRepr (q : Rat) : String :=
  pyIntRepr q.num ++ "/" ++ pyIntRepr (q.den : Int)

mutual

/-- Python `repr()` of a decoded value (used by `str()` on containers). -/
def pyRepr : PyVal → String
  | .vnull => "None"
  | .vbool b => if b then "True" else "False"
  | .vint n => pyIntRepr n
  | .vfloat q => pyFloatRepr q
  | .vstr s => "'" ++ s ++ "'"
  | .varr xs => "[" ++ pyReprList xs ++ "]"
  | .vobj l => "\x7b" ++ pyReprObj l ++ "\x7d"

/-- Comma-joined reprs of the elements of a list value. -/
def pyReprList : List PyVal → String
  | [] => ""
  | [x] => pyRepr x
  | x :: y :: xs => pyRepr x ++ ", " ++ pyReprList (y :: xs)

/-- Comma-joined `key: value` reprs of the entries of an object value. -/
def pyReprObj : List (String × PyVal) → String
  | [] => ""
  | [(k, v)] => "'" ++ k ++ "': " ++ pyRepr v
  | (k, v) :: e :: xs => "'" ++ k ++ "': " ++ pyRepr v ++ ", " ++ pyReprObj (e :: xs)

end

/-- Python `str()` of a decoded value: a string is returned unchanged, any
other value is rendered by its repr. -/
def pyStr : PyVal → String
  | .vstr s => s
  | v => pyRepr v

/-- Dictionary lookup `obj.get(key)`: `none` when `obj` is not a dict or the
key is absent. -/
def objGet (obj : PyVal) (key : String) : Option PyVal :=
  match obj with
  | .vobj l => l.lookup key
  | _ => none

/-! ## Data model: ReportItem and GradingResult (schemas.py) -/

/-- `schemas.ReportItem`: one graded unit. -/
structure ReportItem where
  id : String
  question : String
  answer : String
  methods : Option String := none
  code : Option String := none
  title : Option String := none
deriving DecidableEq, Repr

/-- A numeric Python value as stored in a grading result: either an `int`
or a `float`. -/
inductive PyNum where
  | pint (n : Int)
  | pfloat (q : Rat)
deriving DecidableEq, Repr

/-- Python `int()` applied to a float truncates toward zero. -/
def ratTrunc (q : Rat) : Int := q.num.tdiv q.den

/-- The dict returned by `_ensure_scored`: `{id, score, feedback}` plus the
optional `raw` diagnostic entry. -/
structure GradingResult where
  id : PyVal
  score : PyNum
  feedback : String
  raw : Option String := none

/-! ## `_ensure_scored` (deepseek_client.py lines 16-39, identical in
kimi_client.py lines 18-46) -/

/-- The placeholder feedback installed when the model returned no usable
feedback (`"模型未返回规范JSON，已使用保底评分与占位反馈。"`). -/
def fallbackFeedback : String := "模型未返回规范JSON，已使用保底评分与占位反馈。"

/-- The `id` element: `out_id = obj.get("id", out_id) or out_id` with
`out_id` initialised to `item.id`. -/
def ensuredId (obj : PyVal) (item : ReportItem) : PyVal :=
  match objGet obj "id" with
  | some v => if pyTruthy v then v else .vstr item.id
  | none => .vstr item.id

/-- `isinstance(score, (int, float))` as a numeric extraction: Python bools
pass the test and behave as the integers 0/1. -/
def toPyNum : PyVal → Option PyNum
  | .vint n => some (.pint n)
  | .vfloat q => some (.pfloat q)
  | .vbool b => some (.pint (if b then 1 else 0))
  | _ => none

/-- The numeric score extracted from the model object, `none` when the object
lacks a numeric `score` entry. -/
def objScoreNum (obj : PyVal) : Option PyNum :=
  (objGet obj "score").bind toPyNum

/-- `if not isinstance(score, (int, float)): score = 60`. -/
def ensuredScoreNum (obj : PyVal) : PyNum :=
  match objScoreNum obj with
  | some p => p
  | none => .pint 60

/-- `int(score) if isinstance(score, float) else score`. -/
def truncScore : PyNum → PyNum
  | .pfloat q => .pint (ratTrunc q)
  | .pint n => .pint n

/-- The feedback element: `None` or a blank string is replaced by the
placeholder, anything else is passed through `str()`. -/
def ensuredFeedback (obj : PyVal) : String :=
  match objGet obj "feedback" with
  | none => fallbackFeedback
  | some .vnull => fallbackFeedback
  | some (.vstr s) => if pyStrip s = "" then fallbackFeedback else s
  | some v => pyStr v

/-- `_ensure_scored(obj, item, raw)`: guarantee an `{id, score, feedback}`
dict, with fallback score 60 and placeholder feedback. -/
def ensureScored (obj : PyVal) (item : ReportItem) (raw : Option String := none) :
    GradingResult :=
  { id := ensuredId obj item
    score := truncScore (ensuredScoreNum obj)
    feedback := ensuredFeedback obj
    raw := raw }

/-! ## `score_item` / `score_items` (deepseek_client.py lines 50-103 and
106-148, structurally identical in kimi_client.py)

The chat-completion call plus JSON decoding is the external boundary: a call
either fails at transport level (`_safe_chat_create` returns `None`) or
yields response text whose decode (`json.loads`, falling back to
`_extract_json_block`) produces either a value or nothing.  An empty string
and malformed JSON both decode to nothing. -/

/-- Outcome of one chat-completion call as seen after JSON decoding. -/
inductive LlmResp where
  | netFail
  | content (parsed : Option PyVal)

/-- `score_item`: grade a single item, never failing. -/
def score_item (item : ReportItem) (resp : LlmResp) : GradingResult :=
  match resp with
  | .netFail =>
    ensureScored (.vobj []) item (some "模型调用失败：可能超出上下文限制或服务端错误")
  | .content parsed =>
    match parsed with
    | some v => ensureScored (match v with | .vobj _ => v | _ => .vobj []) item none
    | none => ensureScored (.vobj []) item none

/-- The `by_id` dictionary built from the parsed array
(`by_id[str(x["id"])] = x` for every dict element carrying an `"id"` key;
later entries overwrite earlier ones), queried at `key`. -/
def byIdGet (parsed : List PyVal) (key : String) : Option PyVal :=
  parsed.foldl (fun acc x =>
    match x with
    | .vobj l =>
      match l.lookup "id" with
      | some idv => if pyStr idv = key then some x else acc
      | none => acc
    | _ => acc) none

/-- The object reconciled to the item at position `idx`: id match first,
then positional fallback (`parsed[idx] if isinstance(parsed[idx], dict)
else {}`), then `{}` (`obj or {}`). -/
def reconciledObj (xs : List PyVal) (idx : Nat) (itemId : String) : PyVal :=
  let obj : Option PyVal :=
    match byIdGet xs itemId with
    | some o => some o
    | none =>
      if idx < xs.length then
        some (match xs.get? idx with
              | some x => (match x with | .vobj _ => x | _ => .vobj [])
              | none => .vobj [])
      else none
  match obj with
  | some o => if pyTruthy o then o else .vobj []
  | none => .vobj []

/-- `score_items`: batch grading.  `batch` is the single batch call's
outcome; `itemResp` gives the outcome of the per-item fallback call for the
item at each position (used when the batch call fails or its payload is not
a list). -/
def score_items (items : List ReportItem) (batch : LlmResp)
    (itemResp : Nat → LlmResp) : List GradingResult :=
  match batch with
  | .netFail => items.enum.map (fun p => score_item p.2 (itemResp p.1))
  | .content parsed =>
    match parsed with
    | some (.varr xs) =>
      items.enum.map (fun p => ensureScored (reconciledObj xs p.1 p.2.id) p.2 none)
    | some _ => items.enum.map (fun p => score_item p.2 (itemResp p.1))
    | none => items.enum.map (fun p => score_item p.2 (itemResp p.1))

/-! ## Field-label normalizer (docx_parser.py lines 13-43) -/

/-- `LABEL_MAP`: the fixed synonym-to-canonical-name mapping. -/
def LABEL_MAP : List (String × String) :=
  [("学院", "学院信息"), ("学院信息", "学院信息"),
   ("专业", "专业信息"), ("专业信息", "专业信息"),
   ("时间", "时间"), ("姓名", "姓名"), ("学号", "学号"), ("班级", "班级"),
   ("指导老师", "指导老师"), ("课程名称", "课程名称"), ("周次", "周次"),
   ("实验名称", "实验名称"), ("实验环境", "实验环境"), ("实验内容", "实验内容"),
   ("实验分析与体会", "实验分析与体会"), ("实验日期", "实验日期"),
   ("备注", "备注"), ("成绩", "成绩"), ("签名", "签名"), ("日期", "日期")]

/-- `re.sub(r"[：:]\s*$", "", t)` applied to an already-stripped string: a
single trailing half- or full-width colon is removed (the `\s*` part is
vacuous because trailing whitespace was stripped first, by the same
whitespace class). -/
def dropTrailingColon (s : String) : String :=
  match s.toList.getLast? with
  | some c => if c = ':' || c = '：' then String.mk s.toList.dropLast else s
  | none => s

/-- The stripped form a label is reduced to before the map lookup in
`_normalize_label`: strip, drop one trailing colon, remove all whitespace. -/
def strippedLabel (text : String) : String :=
  removePyWs (dropTrailingColon (pyStrip text))

/-- `_normalize_label`: reduce to the stripped form and look it up in
`LABEL_MAP`, defaulting to the stripped form itself. -/
def normalizeLabel (text : String) : String :=
  (LABEL_MAP.lookup (strippedLabel text)).getD (strippedLabel text)

/-! ## ReportDocument (schemas.py) -/

/-- `schemas.ReportDocument`.  Lean rejects CJK identifiers, so the fields
are transliterated: institution=学院信息, program=专业信息, timeField=时间,
studentName=姓名, studentId=学号, className=班级, advisor=指导老师,
courseName=课程名称, weekNo=周次, experimentName=实验名称,
experimentEnv=实验环境, analysisField=实验分析与体会,
experimentDate=实验日期, remarks=备注, grade=成绩, signature=签名,
dateField=日期, rawContent=实验内容原文. -/
structure ReportDocument where
  institution : Option String := none
  program : Option String := none
  timeField : Option String := none
  studentName : Option String := none
  studentId : Option String := none
  className : Option String := none
  advisor : Option String := none
  courseName : Option String := none
  weekNo : Option String := none
  experimentName : Option String := none
  experimentEnv : Option String := none
  analysisField : Option String := none
  experimentDate : Option String := none
  remarks : Option String := none
  grade : Option String := none
  signature : Option String := none
  dateField : Option String := none
  rawContent : Option String := none
  content_items : List ReportItem := []
deriving DecidableEq, Repr

/-- The seventeen scalar fields assignable by name via `setattr`. -/
inductive CanonField where
  | institution | program | timeField | studentName | studentId | className
  | advisor | courseName | weekNo | experimentName | experimentEnv
  | analysisField | experimentDate | remarks | grade | signature | dateField
deriving DecidableEq, Repr

/-- The canonical field addressed by a canonical label string, if any. -/
def canonOfLabel (s : String) : Option CanonField :=
  if s = "学院信息" then some .institution
  else if s = "专业信息" then some .program
  else if s = "时间" then some .timeField
  else if s = "姓名" then some .studentName
  else if s = "学号" then some .studentId
  else if s = "班级" then some .className
  else if s = "指导老师" then some .advisor
  else if s = "课程名称" then some .courseName
  else if s = "周次" then some .weekNo
  else if s = "实验名称" then some .experimentName
  else if s = "实验环境" then some .experimentEnv
  else if s = "实验分析与体会" then some .analysisField
  else if s = "实验日期" then some .experimentDate
  else if s = "备注" then some .remarks
  else if s = "成绩" then some .grade
  else if s = "签名" then some .signature
  else if s = "日期" then some .dateField
  else none

/-- `setattr(report, field, v)` for a canonical scalar field. -/
def setCanon (r : ReportDocument) : CanonField → String → ReportDocument
  | .institution, v => { r with institution := some v }
  | .program, v => { r with program := some v }
  | .timeField, v => { r with timeField := some v }
  | .studentName, v => { r with studentName := some v }
  | .studentId, v => { r with studentId := some v }
  | .className, v => { r with className := some v }
  | .advisor, v => { r with advisor := some v }
  | .courseName, v => { r with courseName := some v }
  | .weekNo, v => { r with weekNo := some v }
  | .experimentName, v => { r with experimentName := some v }
  | .experimentEnv, v => { r with experimentEnv := some v }
  | .analysisField, v => { r with analysisField := some v }
  | .experimentDate, v => { r with experimentDate := some v }
  | .remarks, v => { r with remarks := some v }
  | .grade, v => { r with grade := some v }
  | .signature, v => { r with signature := some v }
  | .dateField, v => { r with dateField := some v }

/-- `setattr(report, label, v)` addressed by label string. -/
def setFieldByLabel (r : ReportDocument) (label v : String) : ReportDocument :=
  match canonOfLabel label with
  | some f => setCanon r f v
  | none => r

/-- Python truthiness of an optional string field. -/
def optTruthy : Option String → Bool
  | none => false
  | some s => !s.toList.isEmpty

/-- Truthiness of `report.实验内容原文 and report.实验内容原文.strip()`. -/
def rawContentTruthy (r : ReportDocument) : Bool :=
  match r.rawContent with
  | none => false
  | some s => !(pyStrip s).toList.isEmpty

/-- `ReportDocument(content_items=[])`. -/
def initReport : ReportDocument := {}

/-! ## Document model for the table walkers

A document is the list of its tables; only table cell text is consumed.
`gridSpan` models python-docx's `grid_span` (always ≥ 1); `tc` models the
identity of the underlying `<w:tc>` element, which merged cells share. -/

structure Cell where
  text : String
  gridSpan : Nat := 1
  tc : Nat := 0
deriving DecidableEq, Repr

structure Row where
  cells : List Cell
deriving DecidableEq, Repr

structure Table where
  rows : List Row
deriving DecidableEq, Repr

structure Docx where
  tables : List Table
deriving DecidableEq, Repr

/-! ## Template-positional extractor (`_parse_by_template`, docx_parser.py
lines 181-289) -/

/-- The cell walk of `_parse_by_template`: starting at physical column 0,
visit the cell and advance by its grid span, so that the position of each
visited cell in the result is its `grid_span_index`.  Fuel (the cell count)
keeps the recursion structural; a span of 0 cannot occur in python-docx and
behaves as 1 here. -/
def spanWalkAux : Nat → List Cell → List Cell
  | 0, _ => []
  | _, [] => []
  | fuel+1, c :: rest => c :: spanWalkAux fuel (rest.drop (c.gridSpan - 1))

/-- The visited cells of a row in `grid_span_index` order. -/
def spanWalk (cells : List Cell) : List Cell := spanWalkAux cells.length cells

/-- `" ".join(_strip(c.text) for c in row.cells)`: the joined row text used
for the content-range keyword checks. -/
def rowJoinedText (row : Row) : String :=
  String.intercalate " " (row.cells.map (fun c => pyStrip c.text))

/-- The field assigned by the fixed top-area coordinates (rows 0-4). -/
def topFieldAt (rowIdx gsi : Nat) : Option CanonField :=
  if rowIdx = 0 then
    if gsi = 0 then some .institution
    else if gsi = 1 then some .program
    else if gsi = 2 then some .timeField
    else none
  else if rowIdx = 1 then
    if gsi = 1 then some .studentName
    else if gsi = 3 then some .studentId
    else none
  else if rowIdx = 2 then
    if gsi = 1 then some .className
    else if gsi = 3 then some .advisor
    else none
  else if rowIdx = 3 then
    if gsi = 1 then some .courseName
    else if gsi = 3 then some .weekNo
    else none
  else if rowIdx = 4 then
    if gsi = 1 then some .experimentName
    else none
  else none

/-- The field assigned by the offsets relative to the
"实验分析与体会" anchor row (+1, +2, +3, +4, +6). -/
def analysFieldAt (analysRowIdx : Option Nat) (rowIdx gsi : Nat) :
    Option CanonField :=
  match analysRowIdx with
  | none => none
  | some a =>
    if rowIdx = a + 1 then some .analysisField
    else if rowIdx = a + 2 then some .experimentDate
    else if rowIdx = a + 3 && gsi = 1 then some .remarks
    else if rowIdx = a + 4 && gsi = 1 then some .grade
    else if rowIdx = a + 6 && gsi = 1 then some .dateField
    else none

/-- `set_field(name, value)`: `setattr` with a stripped value, applied when
the coordinate rule names a field. -/
def applyOptField (r : ReportDocument) (f : Option CanonField) (v : String) :
    ReportDocument :=
  match f with
  | some f => setCanon r f (pyStrip v)
  | none => r

/-- One cell of the walk: the top-area assignment followed by the
analysis-anchored assignment, exactly as they are sequenced in the source. -/
def templateCellAssign (rowIdx : Nat) (analysRowIdx : Option Nat)
    (r : ReportDocument) (gsi : Nat) (text : String) : ReportDocument :=
  applyOptField (applyOptField r (topFieldAt rowIdx gsi) text)
    (analysFieldAt analysRowIdx rowIdx gsi) text

/-- The loop state of `_parse_by_template`. -/
structure TState where
  report : ReportDocument
  contentStarted : Bool
  analysRowIdx : Option Nat
  contentBuffer : List String

/-- One row of `_parse_by_template`: walk the cells applying positional
assignments (against the anchor index recorded BEFORE this row), then run
the content-range detection on the joined row text. -/
def templateProcessRow (st : TState) (p : Nat × Row) : TState :=
  let report := (spanWalk p.2.cells).enum.foldl
    (fun r q => templateCellAssign p.1 st.analysRowIdx r q.1 (pyStrip q.2.text))
    st.report
  let rowText := rowJoinedText p.2
  let st := { st with report := report }
  if !st.contentStarted && strContains rowText "实验内容" then
    { st with contentStarted := true }
  else if st.contentStarted && st.analysRowIdx.isNone then
    if strContains rowText "实验分析与体会" then
      { st with analysRowIdx := some p.1 }
    else if !rowText.toList.isEmpty then
      { st with contentBuffer := st.contentBuffer ++ [rowText] }
    else st
  else st

/-- The full row loop of `_parse_by_template` over the first table. -/
def templateWalk (table : Table) : TState :=
  table.rows.enum.foldl templateProcessRow
    { report := initReport, contentStarted := false
      analysRowIdx := none, contentBuffer := [] }

/-- The record built by `_parse_by_template` before the `has_any` check:
the walked fields plus the joined, stripped content buffer. -/
def buildTemplateReport (table : Table) : ReportDocument :=
  let st := templateWalk table
  if !st.contentBuffer.isEmpty then
    { st.report with
        rawContent := some (pyStrip (String.intercalate "\n\n" st.contentBuffer)) }
  else st.report

/-- The `has_any` test: nine specific fields plus the content block. -/
def hasAnyTemplate (r : ReportDocument) : Bool :=
  optTruthy r.institution || optTruthy r.program || optTruthy r.timeField ||
  optTruthy r.studentName || optTruthy r.studentId || optTruthy r.courseName ||
  optTruthy r.experimentName || optTruthy r.analysisField ||
  optTruthy r.experimentDate || rawContentTruthy r

/-- `_parse_by_template`: None when there is no table or no row, otherwise
the built record filtered through `has_any`. -/
def parseByTemplate (doc : Docx) : Option ReportDocument :=
  match doc.tables with
  | [] => none
  | table :: _ =>
    match table.rows with
    | [] => none
    | _ :: _ =>
      let r := buildTemplateReport table
      if hasAnyTemplate r then some r else none

/-! ## Label-scan fallback extractor and `parse_docx_to_report`
(docx_parser.py lines 46-61 and 292-327) -/

/-- `re.split(r"[：:]", raw, maxsplit=1)` yielding two parts exactly when a
colon occurs. -/
def splitFirstColon (raw : String) : Option (String × String) :=
  let cs := raw.toList
  if cs.any (fun c => c = '：' || c = ':') then
    some (String.mk (cs.takeWhile (fun c => !(c = '：' || c = ':'))),
          String.mk ((cs.dropWhile (fun c => !(c = '：' || c = ':'))).drop 1))
  else none

/-- `_extract_row_label_value`: a `(label, value)` pair from a row — cells 0
and 1 when the row has at least two cells, a colon split of the single cell
otherwise. -/
def extractRowLabelValue (row : Row) : Option (String × String) :=
  match row.cells with
  | [] => none
  | [c] =>
    match splitFirstColon (pyStrip c.text) with
    | some (l, v) => some (normalizeLabel l, pyStrip v)
    | none => none
  | c0 :: c1 :: _ => some (normalizeLabel c0.text, pyStrip c1.text)

/-- `LABEL_MAP.values()`. -/
def canonValues : List String := LABEL_MAP.map Prod.snd

/-- One row of the fallback scan: content rows accumulate, recognized field
labels assign, anything else is skipped. -/
def fallbackStep (acc : ReportDocument × List String) (row : Row) :
    ReportDocument × List String :=
  match extractRowLabelValue row with
  | none => acc
  | some (label, value) =>
    if label = "实验内容" then
      (acc.1, if !value.toList.isEmpty then acc.2 ++ [value] else acc.2)
    else if canonValues.contains label then
      (setFieldByLabel acc.1 label value, acc.2)
    else acc

/-- The label-scan fallback over every row of every table, then the joined
content accumulator stored as the raw content (None when blank). -/
def fallbackParseDoc (doc : Docx) : ReportDocument :=
  let acc := doc.tables.foldl (fun a t => t.rows.foldl fallbackStep a)
    (initReport, [])
  let full := pyStrip (String.intercalate "\n\n" acc.2)
  { acc.1 with rawContent := if !full.toList.isEmpty then some full else none }

/-- `parse_docx_to_report`: the template extractor first, the label-scan
fallback when it reports no match. -/
def parseDocxToReport (doc : Docx) : ReportDocument :=
  match parseByTemplate doc with
  | some r => r
  | none => fallbackParseDoc doc

/-! ## Local heuristic segmenter (`_parse_content_items`, docx_parser.py
lines 64-173) -/

/-- The numeral class of the boundary regex: Arabic digits or the listed
CJK numerals. -/
def isNumeralChar (c : Char) : Bool :=
  c.isDigit || c = '一' || c = '二' || c = '三' || c = '四' || c = '五' ||
  c = '六' || c = '七' || c = '八' || c = '九' || c = '十' || c = '百' ||
  c = '千' || c = '零' || c = '〇'

/-- Consume the optional parenthetical prefix `（[^）]*）` (it only matches
when the closing bracket exists; otherwise nothing is consumed). -/
def skipParen (cs : List Char) : List Char :=
  match cs with
  | '（' :: rest =>
    if rest.any (fun c => c = '）') then (rest.dropWhile (fun c => c ≠ '）')).drop 1
    else '（' :: rest
  | _ => cs

/-- Expect a half- or full-width colon and return the remainder with the
post-colon whitespace dropped. -/
def parseColonRest (cs : List Char) : Option (List Char) :=
  match cs with
  | c :: rest => if c = '：' || c = ':' then some (rest.dropWhile pyIsSpace) else none
  | [] => none

/-- Does the line open a question segment (the boundary pattern
`(^|\n)(（…）)?\s*题目<num>\s*[：:]\s*` of `seg_pat`)?  Returns the text
after the colon when it does. -/
def boundaryRest (line : String) : Option String :=
  match (skipParen line.toList).dropWhile pyIsSpace with
  | '题' :: '目' :: cs =>
    let cs := cs.dropWhile pyIsSpace
    if (cs.takeWhile isNumeralChar).isEmpty then none
    else
      match parseColonRest ((cs.dropWhile isNumeralChar).dropWhile pyIsSpace) with
      | some rest => some (String.mk rest)
      | none => none
  | _ => none

/-- Gather the lines of each segment: a boundary line opens a segment with
its post-colon text; following non-boundary lines belong to it; text before
the first boundary belongs to no segment. -/
def collectSegments : List String → Option (List String) → List (List String) →
    List (List String)
  | [], cur, acc =>
    match cur with
    | some seg => acc ++ [seg]
    | none => acc
  | l :: rest, cur, acc =>
    match boundaryRest l with
    | some r =>
      match cur with
      | some seg => collectSegments rest (some [r]) (acc ++ [seg])
      | none => collectSegments rest (some [r]) acc
    | none =>
      match cur with
      | some seg => collectSegments rest (some (seg ++ [l])) acc
      | none => collectSegments rest none acc

/-- The stripped question segments found in a text. -/
def findSegments (text : String) : List String :=
  (collectSegments (splitLines text) none []).map
    (fun ls => pyStrip (String.intercalate "\n" ls))

/-- The sub-label alternatives of `label_pat`, in alternation order. -/
def itemLabels : List String :=
  ["题目要求", "题目", "实验方法和步骤", "方法和步骤", "代码", "运行结果"]

/-- Try to read one of the sub-labels followed by a colon at this position,
returning the label and the remainder of the line after the colon. -/
def matchLabelAt (cs : List Char) : Option (String × String) :=
  itemLabels.findSome? (fun lbl =>
    if lbl.toList.isPrefixOf cs then
      match parseColonRest ((cs.drop lbl.length).dropWhile pyIsSpace) with
      | some rest => some (lbl, String.mk rest)
      | none => none
    else none)

/-- Does the line start a sub-label span
(`(^|\n)\s*(题目<num>\s*)?(label)\s*[：:]\s*` of `label_pat`)? -/
def parseLabelLine (line : String) : Option (String × String) :=
  let cs := line.toList.dropWhile pyIsSpace
  let withPre : Option (String × String) :=
    match cs with
    | '题' :: '目' :: cs2 =>
      let cs3 := cs2.dropWhile pyIsSpace
      if (cs3.takeWhile isNumeralChar).isEmpty then none
      else matchLabelAt ((cs3.dropWhile isNumeralChar).dropWhile pyIsSpace)
    | _ => none
  match withPre with
  | some r => some r
  | none => matchLabelAt cs

/-- The four fields `_extract_fields` recovers from one segment. -/
structure ExtractedFields where
  title : Option String
  question : String
  methods : Option String
  code : Option String
deriving DecidableEq, Repr

/-- The labelled spans of a segment: line index, label, and the text after
the label's colon on that line. -/
def labelMatches (lines : List String) : List (Nat × String × String) :=
  lines.enum.filterMap (fun p =>
    (parseLabelLine p.2).map (fun r => (p.1, r.1, r.2)))

/-- Lines `a ≤ i < b` of a segment. -/
def sliceLines (lines : List String) (a b : Nat) : List String :=
  (lines.drop a).take (b - a)

/-- Assign one labelled span's content: empty content is skipped, the
"运行结果" label is discarded. -/
def assignField (f : ExtractedFields) (label content : String) : ExtractedFields :=
  if content.toList.isEmpty then f
  else if label = "题目要求" || label = "题目" then { f with question := content }
  else if label = "实验方法和步骤" || label = "方法和步骤" then
    { f with methods := some content }
  else if label = "代码" then { f with code := some content }
  else f

/-- `_extract_fields(seg)`: the labelled partition when sub-labels exist,
otherwise first line = title/question, remainder = methods. -/
def extractFields (seg : String) : ExtractedFields :=
  let lines := splitLines seg
  match labelMatches lines with
  | [] =>
    match lines with
    | first :: rest =>
      if !rest.isEmpty then
        { title := some (pyStrip first), question := pyStrip first
          methods := some (pyStrip (String.intercalate "\n" rest)), code := none }
      else
        { title := some (pyStrip seg), question := pyStrip seg
          methods := none, code := none }
    | [] =>
      { title := some (pyStrip seg), question := pyStrip seg
        methods := none, code := none }
  | m0 :: ms =>
    let preamble := pyStrip (String.intercalate "\n" (lines.take m0.1))
    let title : Option String :=
      if !preamble.toList.isEmpty then
        some (pyStrip ((splitLines preamble).headD ""))
      else none
    let ends := ms.map (fun m => m.1) ++ [lines.length]
    ((m0 :: ms).zip ends).foldl
      (fun f p =>
        assignField f p.1.2.1
          (pyStrip (String.intercalate "\n"
            (p.1.2.2 :: sliceLines lines (p.1.1 + 1) p.2))))
      { title := title, question := "", methods := none, code := none }

/-- Python truthiness of the optional methods/code strings. -/
def strTruthy : Option String → Bool
  | none => false
  | some s => !s.toList.isEmpty

/-- Build the `ReportItem` of the segment at position `idx`. -/
def itemOfSegment (idx : Nat) (seg : String) : ReportItem :=
  let f := extractFields seg
  let parts :=
    (match f.methods with
     | some m => if !m.toList.isEmpty then [s!"实验方法和步骤：{m}"] else []
     | none => []) ++
    (match f.code with
     | some c => if !c.toList.isEmpty then [s!"代码：{c}"] else []
     | none => [])
  { id := s!"Q{idx+1}", question := f.question
    answer := String.intercalate "\n" parts
    methods := f.methods, code := f.code, title := f.title }

/-- The count guarantee of `_parse_content_items`: truncate when too many,
pad with empty placeholder items when too few. -/
def enforceCount (items : List ReportItem) (expectedCount : Nat) :
    List ReportItem :=
  if 0 < expectedCount then
    if expectedCount < items.length then items.take expectedCount
    else if items.length < expectedCount then
      items ++ (List.range (expectedCount - items.length)).map
        (fun i => { id := s!"Q{items.length + i + 1}", question := "", answer := "" })
    else items
  else items

/-- `_parse_content_items(content_text, expected_count)`. -/
def parseContentItems (contentText : String) (expectedCount : Nat) :
    List ReportItem :=
  let text := pyReplace (pyReplace contentText "\r\n" "\n") "\r" "\n"
  let segs := findSegments text
  let segs :=
    if segs.isEmpty && !(pyStrip contentText).toList.isEmpty then
      [pyStrip contentText]
    else segs
  enforceCount (segs.enum.map (fun p => itemOfSegment p.1 p.2)) expectedCount

/-! ## Document writer (`_find_label_row_and_value_cell` and
`write_grade_and_date`, docx_writer.py) -/

/-- The visible-cell scan: first occurrence of each underlying `_tc`
identity, paired with its index into `row.cells`
(`unique_order_indices`). -/
def visibleByTc : List (Nat × Cell) → List Nat → List (Nat × Cell)
  | [], _ => []
  | p :: rest, seen =>
    if seen.contains p.2.tc then visibleByTc rest seen
    else p :: visibleByTc rest (p.2.tc :: seen)

/-- The visible (merge-collapsed) cells of a row with their raw indices. -/
def uniqueVisible (cells : List Cell) : List (Nat × Cell) :=
  visibleByTc cells.enum []

/-- The colon-and-whitespace normalization applied to both cell text and
label before the containment test. -/
def normColonWs (s : String) : String := removePyWs (pyReplace s "：" ":")

/-- The label match test of `_find_label_row_and_value_cell`:
`(label in text) or (lbl_norm in normalized)` on the stripped cell text. -/
def cellMatchesLabel (c : Cell) (label : String) : Bool :=
  strContains (pyStrip c.text) label ||
  strContains (normColonWs (pyStrip c.text)) (normColonWs label)

/-- The visible index of the first matching cell among a list of visible
cells, mirroring the Python loop's enumerate counter. -/
def firstMatchVisAux (label : String) : List (Nat × Cell) → Nat → Option Nat
  | [], _ => none
  | p :: rest, i =>
    if cellMatchesLabel p.2 label then some i
    else firstMatchVisAux label rest (i + 1)

/-- The visible index of the first label-matching visible cell of a row. -/
def firstMatchVis (row : Row) (label : String) : Option Nat :=
  firstMatchVisAux label (uniqueVisible row.cells) 0

/-- The per-row core of `_find_label_row_and_value_cell`: rows that are not
visually two columns are skipped; otherwise the first matching visible cell
fixes the value cell — the following visible column when there is one, the
preceding one when the flag is set and the label is last, visible column 0
otherwise.  Returns the value cell's index into `row.cells`. -/
def findRowValueIdx (row : Row) (label : String) (preferPrevIfLast : Bool) :
    Option Nat :=
  if (uniqueVisible row.cells).length ≠ 2 then none
  else
    match firstMatchVis row label with
    | none => none
    | some visIdx =>
      ((uniqueVisible row.cells).get?
        (if visIdx + 1 < (uniqueVisible row.cells).length then visIdx + 1
         else if preferPrevIfLast = true ∧ 1 ≤ visIdx then visIdx - 1
         else 0)).map Prod.fst

/-- `_find_label_row_and_value_cell` over a table: the first row with a
resolution wins; returns (row index, value cell index). -/
def findLabelRowAndValueCell (table : Table) (label : String)
    (preferPrevIfLast : Bool) : Option (Nat × Nat) :=
  table.rows.enum.findSome? (fun p =>
    (findRowValueIdx p.2 label preferPrevIfLast).map (fun idx => (p.1, idx)))

/-- `row.cells[idx].text = val`: the underlying tc is mutated, so every
physical cell sharing it reflects the new text. -/
def setCellTextByTc (row : Row) (idx : Nat) (val : String) : Row :=
  match row.cells.get? idx with
  | none => row
  | some target =>
    { cells := row.cells.map
        (fun c => if c.tc = target.tc then { c with text := val } else c) }

/-- Write `val` at the location the label resolution picks in this table,
reporting whether a write happened. -/
def writeInTable (table : Table) (label : String) (preferPrev : Bool)
    (val : String) : Table × Bool :=
  match findLabelRowAndValueCell table label preferPrev with
  | none => (table, false)
  | some (ri, ci) =>
    ({ rows := table.rows.enum.map
        (fun p => if p.1 = ri then setCellTextByTc p.2 ci val else p.2) }, true)

/-- `write_grade_and_date`: for each table, write the grade (with the
preceding-column flag enabled) and then the date (flag disabled, resolved
against the already grade-written table), reporting whether anything was
written. -/
def write_grade_and_date (doc : Docx) (grade dateStr : String) : Docx × Bool :=
  let r := doc.tables.foldl
    (fun (acc : List Table × Bool) t =>
      let g := writeInTable t "成绩" true grade
      let d := writeInTable g.1 "日期" false dateStr
      (acc.1 ++ [d.1], acc.2 || g.2 || d.2))
    ([], false)
  ({ tables := r.1 }, r.2)

/-! ## LLM-assisted segmenter retry loop (`segment_items_from_content`,
deepseek_client.py lines 151-461, kimi_client.py lines 300-537)

The loop body — one chat call plus the delimiter/JSON parsing and the local
repair pass — sits behind the network boundary, so one attempt's outcome is
abstracted: success carries the items built when the final parsed list had
exactly the expected length; a failed attempt records whether a list was
parsed and, if so, its final length (`last_len`); a transport failure
resets `last_len` to nothing. -/

inductive AttemptOutcome where
  | success (items : List ReportItem)
  | failParsedList (n : Nat)
  | failNotList
  | netFail
deriving DecidableEq, Repr

/-- The two ValueError shapes raised when the retries are exhausted:
`题目数量不匹配：期望 {expected}，实际 {last_len}` versus
`模型返回非数组或无法解析题目分段`. -/
inductive SegError where
  | countMismatch (expected actual : Nat)
  | unparsable
deriving DecidableEq, Repr

/-- Python `int()` of a string: optional sign and decimal digits after
stripping, anything else raising ValueError (modelled as `none`). -/
def pyParseInt (s : String) : Option Int :=
  let t := (pyStrip s).toList
  let signed : Int × List Char :=
    match t with
    | '-' :: rest => (-1, rest)
    | '+' :: rest => (1, rest)
    | cs => (1, cs)
  if signed.2.isEmpty || !signed.2.all Char.isDigit then none
  else some (signed.1 *
    (signed.2.foldl (fun a c => a * 10 + (c.toNat - 48)) (0 : Nat) : Nat))

/-- `attempts = int(os.getenv("WORDREPORTCHECK_SEGMENT_RETRY", "3"))` with
ValueError defaulting to 3, then `max(1, min(attempts, 5))`. -/
def clampAttempts (envVal : Option String) : Nat :=
  let a : Int :=
    match envVal with
    | none => 3
    | some s => (pyParseInt s).getD 3
  (max 1 (min a 5)).toNat

/-- The attempt loop: the first success returns its items; when the
attempts are exhausted the error is chosen by the recorded `last_len`. -/
def segmentLoop (expected : Nat) :
    List AttemptOutcome → Option Nat → Except SegError (List ReportItem)
  | [], lastLen =>
    match lastLen with
    | none => .error .unparsable
    | some n => .error (.countMismatch expected n)
  | o :: rest, _ =>
    match o with
    | .success items => .ok items
    | .failParsedList n => segmentLoop expected rest (some n)
    | .failNotList => segmentLoop expected rest none
    | .netFail => segmentLoop expected rest none

/-- `segment_items_from_content` (its retry control flow): run the clamped
number of attempts. -/
def segment_items_from_content (expected : Nat) (envRetry : Option String)
    (outcomes : Nat → AttemptOutcome) : Except SegError (List ReportItem) :=
  segmentLoop expected ((List.range (clampAttempts envRetry)).map outcomes) none

/-- Is an attempt outcome a success? -/
def isSuccess : AttemptOutcome → Bool
  | .success _ => true
  | _ => false

/-! ## Concrete inputs for the claims about the extractors and the writer -/

/-- A first table whose only recovered field is 班级 (className), which the
`has_any` check does not inspect. -/
def tableC4 : Table :=
  { rows :=
      [{ cells := [{ text := "" }, { text := "" }, { text := "" }] },
       { cells := [{ text := "" }, { text := "" }, { text := "" }, { text := "" }] },
       { cells := [{ text := "" }, { text := "计科1班" }] }] }

/-- The document holding `tableC4` as its first table. -/
def docC4 : Docx := { tables := [tableC4] }

/-- A first table recovering 学院信息 (institution), which `has_any` does
inspect. -/
def tableC4W : Table := { rows := [{ cells := [{ text := "计算机学院" }] }] }

/-- The document holding `tableC4W` as its first table. -/
def docC4W : Docx := { tables := [tableC4W] }

/-- A two-column row with the grade label in the first logical column. -/
def rowC5 : Row :=
  { cells := [{ text := "成绩：", tc := 0 }, { text := "", tc := 1 }] }

/-- A two-column row with the date label in the last logical column. -/
def rowC6 : Row :=
  { cells := [{ text := "备注内容", tc := 0 }, { text := "日期：", tc := 1 }] }

/-! ## Concrete batch-scoring scenario (claim C2) -/

/-- Three items Q1, Q2, Q3 submitted for batch scoring. -/
def itemsC2 : List ReportItem :=
  [ReportItem.mk "Q1" "q1" "a1" none none none,
   ReportItem.mk "Q2" "q2" "a2" none none none,
   ReportItem.mk "Q3" "q3" "a3" none none none]

/-- The model's batch response parsed to the one-element array
`[ {"id": "Q2", "score": 90, "feedback": "ok"} ]`. -/
def respC2 : LlmResp :=
  .content (some (.varr
    [.vobj [("id", .vstr "Q2"), ("score", .vint 90), ("feedback", .vstr "ok")]]))

/-- A float value used to exercise the int() truncation path: 123/2 = 61.5. -/
def ratC10 : Rat := { num := 123, den := 2, den_nz := by decide, reduced := by decide }

/-! ## Well-formedness of every synthesized result -/

theorem string_mk_append (l m : List Char) :
    String.mk l ++ String.mk m = String.mk (l ++ m) := rfl

theorem string_mk_ne_empty {l : List Char} (h : l ≠ []) : String.mk l ≠ "" := by
  intro e
  exact h (congrArg String.data e)

theorem append_ne_empty_left {a : String} (b : String) (h : a ≠ "") :
    a ++ b ≠ "" := by
  obtain ⟨l⟩ := a
  obtain ⟨m⟩ := b
  cases l with
  | nil => exact absurd rfl h
  | cons c cs =>
    rw [string_mk_append]
    exact string_mk_ne_empty (by simp)

theorem natDigits_ne_nil {n : Nat} (h : n ≠ 0) : natDigits n ≠ [] := by
  cases n with
  | zero => exact absurd rfl h
  | succ m =>
    rw [natDigits, natDigitsAux]
    simp

theorem pyIntRepr_ne_empty (n : Int) : pyIntRepr n ≠ "" := by
  unfold pyIntRepr
  split
  · decide
  · split
    · exact append_ne_empty_left _ (by decide)
    · refine string_mk_ne_empty (natDigits_ne_nil ?_)
      omega

theorem pyRepr_ne_empty (v : PyVal) : pyRepr v ≠ "" := by
  cases v with
  | vnull => decide
  | vbool b => cases b <;> decide
  | vint n => exact pyIntRepr_ne_empty n
  | vfloat q =>
    exact append_ne_empty_left _ (append_ne_empty_left "/" (pyIntRepr_ne_empty _))
  | vstr s => exact append_ne_empty_left "'" (append_ne_empty_left s (by decide))
  | varr xs =>
    exact append_ne_empty_left "]" (append_ne_empty_left (pyReprList xs) (by decide))
  | vobj l =>
    exact append_ne_empty_left "\x7d" (append_ne_empty_left (pyReprObj l) (by decide))

theorem ensuredFeedback_ne_empty (obj : PyVal) : ensuredFeedback obj ≠ "" := by
  have hfb : fallbackFeedback ≠ "" := by decide
  unfold ensuredFeedback
  rcases hob : objGet obj "feedback" with _ | v
  · exact hfb
  · cases v with
    | vnull => exact hfb
    | vstr s =>
      by_cases h : pyStrip s = ""
      · simpa [h] using hfb
      · simp only [if_neg h]
        intro e
        exact h (by rw [e]; rfl)
    | vbool b => exact pyRepr_ne_empty _
    | vint n => exact pyRepr_ne_empty _
    | vfloat q => exact pyRepr_ne_empty _
    | varr xs => exact pyRepr_ne_empty _
    | vobj l => exact pyRepr_ne_empty _

theorem truncScore_is_int (p : PyNum) : ∃ n : Int, truncScore p = .pint n := by
  cases p with
  | pint n => exact ⟨n, rfl⟩
  | pfloat q => exact ⟨ratTrunc q, rfl⟩

theorem ensureScored_wellformed (obj : PyVal) (item : ReportItem)
    (raw : Option String) :
    (ensureScored obj item raw).feedback ≠ "" ∧
    ∃ n : Int, (ensureScored obj item raw).score = .pint n :=
  ⟨ensuredFeedback_ne_empty obj, truncScore_is_int (ensuredScoreNum obj)⟩

theorem score_item_wellformed (item : ReportItem) (resp : LlmResp) :
    (score_item item resp).feedback ≠ "" ∧
    ∃ n : Int, (score_item item resp).score = .pint n := by
  cases resp with
  | netFail => exact ensureScored_wellformed _ _ _
  | content parsed =>
    cases parsed with
    | some v => exact ensureScored_wellformed _ _ _
    | none => exact ensureScored_wellformed _ _ _

/-- Claim C1: for every non-empty list of items and every model response
(transport failure, undecodable/empty text, a non-list payload, or a list of
any shape or length), `score_items` returns exactly one result per input
item, and every result carries an integer score and a non-empty feedback
string. -/
theorem claim_C1_grading_totality (items : List ReportItem) (batch : LlmResp)
    (itemResp : Nat → LlmResp) (_hne : items ≠ []) :
    (score_items items batch itemResp).length = items.length ∧
    ∀ r ∈ score_items items batch itemResp,
      r.feedback ≠ "" ∧ ∃ n : Int, r.score = .pint n := by
  have hlen : ∀ (f : Nat × ReportItem → GradingResult),
      (items.enum.map f).length = items.length := by
    intro f
    simp [List.enum_length]
  have hmem : ∀ (f : Nat × ReportItem → GradingResult),
      (∀ p, (f p).feedback ≠ "" ∧ ∃ n : Int, (f p).score = .pint n) →
      ∀ r ∈ items.enum.map f, r.feedback ≠ "" ∧ ∃ n : Int, r.score = .pint n := by
    intro f hf r hr
    obtain ⟨p, _, rfl⟩ := List.mem_map.mp hr
    exact hf p
  cases batch with
  | netFail =>
    exact ⟨hlen _, hmem _ (fun p => score_item_wellformed p.2 (itemResp p.1))⟩
  | content parsed =>
    cases parsed with
    | none =>
      exact ⟨hlen _, hmem _ (fun p => score_item_wellformed p.2 (itemResp p.1))⟩
    | some v =>
      cases v with
      | varr xs =>
        exact ⟨hlen _, hmem _ (fun p => ensureScored_wellformed _ _ _)⟩
      | vnull => exact ⟨hlen _, hmem _ (fun p => score_item_wellformed p.2 (itemResp p.1))⟩
      | vbool b => exact ⟨hlen _, hmem _ (fun p => score_item_wellformed p.2 (itemResp p.1))⟩
      | vint n => exact ⟨hlen _, hmem _ (fun p => score_item_wellformed p.2 (itemResp p.1))⟩
      | vfloat q => exact ⟨hlen _, hmem _ (fun p => score_item_wellformed p.2 (itemResp p.1))⟩
      | vstr s => exact ⟨hlen _, hmem _ (fun p => score_item_wellformed p.2 (itemResp p.1))⟩
      | vobj l => exact ⟨hlen _, hmem _ (fun p => score_item_wellformed p.2 (itemResp p.1))⟩

/-- Witness for claim C1 at a concrete input: one item, total transport
failure of both the batch call and the per-item fallback call. -/
theorem claim_C1_witness :
    ([ReportItem.mk "Q1" "q" "a" none none none] ≠ []) ∧
    ((score_items [ReportItem.mk "Q1" "q" "a" none none none] .netFail
        (fun _ => .netFail)).length =
      [ReportItem.mk "Q1" "q" "a" none none none].length ∧
    ∀ r ∈ score_items [ReportItem.mk "Q1" "q" "a" none none none] .netFail
        (fun _ => .netFail),
      r.feedback ≠ "" ∧ ∃ n : Int, r.score = .pint n) :=
  ⟨by simp, claim_C1_grading_totality _ _ _ (by simp)⟩

/-- Claim C2 fails on the code: with parsed response
`[ {"id":"Q2","score":90,"feedback":"ok"} ]`, the result in Q1's position
does not carry the fallback score and feedback.  The positional-index
fallback (`idx < len(parsed)`) hands Q1 the sole parsed object, so Q1's
result is score 90 with feedback "ok" (and id "Q2"); only Q3 receives the
fallback score 60 and the placeholder feedback. -/
theorem claim_C2_counterexample :
    ((score_items itemsC2 respC2 (fun _ => .netFail)).map GradingResult.score =
      [.pint 90, .pint 90, .pint 60]) ∧
    ((score_items itemsC2 respC2 (fun _ => .netFail)).map GradingResult.feedback =
      ["ok", "ok", fallbackFeedback]) ∧
    PyNum.pint 90 ≠ PyNum.pint 60 ∧ "ok" ≠ fallbackFeedback :=
  ⟨rfl, rfl, by decide, by decide⟩

/-- Claim C2 amended: with three items Q1, Q2, Q3 and the parsed response
`[ {"id":"Q2","score":90,"feedback":"ok"} ]`, the scorer returns three
results; the result aligned to Q2 has score 90 and feedback "ok"; the
result in Q1's position also receives score 90 and feedback "ok" (with id
"Q2") through the positional-index fallback; only Q3 carries the fallback
score 60 and the placeholder feedback text. -/
theorem claim_C2_amended :
    (score_items itemsC2 respC2 (fun _ => .netFail)).map
      (fun r => (pyStr r.id, r.score, r.feedback)) =
    [("Q2", PyNum.pint 90, "ok"),
     ("Q2", PyNum.pint 90, "ok"),
     ("Q3", PyNum.pint 60, fallbackFeedback)] := rfl

/-- Claim C10: in every grading result synthesized by `_ensure_scored`, the
fallback score substituted when the model object lacks a numeric score is
exactly 60; a float score is truncated toward zero by `int()`; and in all
cases the stored score is an integer, never a non-integer number. -/
theorem claim_C10_score_fallback_trunc (obj : PyVal) (item : ReportItem)
    (raw : Option String) :
    (∃ n : Int, (ensureScored obj item raw).score = .pint n) ∧
    (objScoreNum obj = none → (ensureScored obj item raw).score = .pint 60) ∧
    (∀ q : Rat, objScoreNum obj = some (.pfloat q) →
      (ensureScored obj item raw).score = .pint (ratTrunc q)) := by
  refine ⟨truncScore_is_int _, ?_, ?_⟩
  · intro h
    simp [ensureScored, ensuredScoreNum, h, truncScore]
  · intro q h
    simp [ensureScored, ensuredScoreNum, h, truncScore]

/-- Witness for claim C10 at concrete inputs: an object with the float score
61.5 is truncated to 61, and the empty object receives the fallback 60. -/
theorem claim_C10_witness :
    ((ensureScored (.vobj [("score", .vfloat ratC10)])
        (ReportItem.mk "W" "q" "a" none none none) none).score = .pint 61) ∧
    ((ensureScored (.vobj [])
        (ReportItem.mk "W" "q" "a" none none none) none).score = .pint 60) := by
  constructor
  · have h := (claim_C10_score_fallback_trunc (.vobj [("score", .vfloat ratC10)])
      (ReportItem.mk "W" "q" "a" none none none) none).2.2 ratC10 rfl
    have ht : ratTrunc ratC10 = 61 := by decide
    rw [h, ht]
  · exact (claim_C10_score_fallback_trunc (.vobj [])
      (ReportItem.mk "W" "q" "a" none none none) none).2.1 rfl

/-! ## Claim C3: segmentation count law -/

theorem enforceCount_length (l : List ReportItem) (ec : Nat) (h : 0 < ec) :
    (enforceCount l ec).length = ec := by
  unfold enforceCount
  rw [if_pos h]
  by_cases h1 : ec < l.length
  · rw [if_pos h1]
    simp only [List.length_take]
    omega
  · rw [if_neg h1]
    by_cases h2 : l.length < ec
    · rw [if_pos h2]
      simp only [List.length_append, List.length_map, List.length_range]
      omega
    · rw [if_neg h2]
      omega

/-- Claim C3: for every raw content text and every positive expected count,
the local heuristic segmenter returns a list of exactly the expected count
of items — surplus segments are truncated and missing ones padded with
empty placeholders, including when the text is empty and no segment is
found. -/
theorem claim_C3_segmentation_count (contentText : String) (expectedCount : Nat)
    (h : 0 < expectedCount) :
    (parseContentItems contentText expectedCount).length = expectedCount := by
  unfold parseContentItems
  exact enforceCount_length _ _ h

/-- Witness for claim C3: the empty text yields zero segments and is padded
to the two requested placeholder items. -/
theorem claim_C3_witness :
    0 < 2 ∧ (parseContentItems "" 2).length = 2 :=
  ⟨by decide, claim_C3_segmentation_count "" 2 (by decide)⟩

/-! ## Claim C9: field-label normalizer -/

/-- Claim C9 fails on the code: the normalizer does not return unknown
labels unchanged.  At input "abc def:" the stripped form "abcdef" is not in
the mapping, and the output is the stripped form "abcdef", not the
input "abc def:". -/
theorem claim_C9_counterexample :
    normalizeLabel "abc def:" = "abcdef" ∧ "abcdef" ≠ "abc def:" :=
  ⟨rfl, by decide⟩

/-- Claim C9 amended: the normalizer is a total function that strips a
trailing half- or full-width colon and all whitespace and maps any known
synonym to its canonical field name; for every input whose STRIPPED form is
not in the mapping, the output equals that stripped form (not the original
input). -/
theorem claim_C9_amended (text : String)
    (h : LABEL_MAP.lookup (strippedLabel text) = none) :
    normalizeLabel text = strippedLabel text ∧
    normalizeLabel "学院：" = "学院信息" ∧
    normalizeLabel " 专业 " = "专业信息" := by
  refine ⟨?_, rfl, rfl⟩
  unfold normalizeLabel
  rw [h]
  rfl

/-- Witness for claim C9 at a concrete unknown label. -/
theorem claim_C9_witness :
    normalizeLabel "foo bar：" = strippedLabel "foo bar：" ∧
    normalizeLabel "学院：" = "学院信息" ∧
    normalizeLabel " 专业 " = "专业信息" :=
  claim_C9_amended "foo bar：" (by decide)

/-! ## Claim C4: template extractor no-match signal -/

/-- Claim C4 fails on the code: the `has_any` test inspects only nine of the
18 canonical fields, so a first table whose only recovered field is 班级
(className) yields None even though a canonical field was recovered. -/
theorem claim_C4_counterexample :
    (buildTemplateReport tableC4).className = some "计科1班" ∧
    parseByTemplate docC4 = none :=
  ⟨rfl, rfl⟩

/-- Claim C4 amended: the template extractor returns None when the document
has no table or the first table has no rows; otherwise it returns a record
exactly when one of the NINE fields the `has_any` check inspects (学院信息,
专业信息, 时间, 姓名, 学号, 课程名称, 实验名称, 实验分析与体会, 实验日期) or
the recovered content block is non-empty — recovering only a field outside
this subset (such as 班级, 指导老师, 周次, 实验环境, 备注, 成绩, 签名 or
日期) still yields None. -/
theorem claim_C4_amended (doc : Docx) :
    (doc.tables = [] → parseByTemplate doc = none) ∧
    (∀ t ts, doc.tables = t :: ts → t.rows = [] → parseByTemplate doc = none) ∧
    (∀ t ts, doc.tables = t :: ts → t.rows ≠ [] →
      (parseByTemplate doc ≠ none ↔
        (optTruthy (buildTemplateReport t).institution ||
         optTruthy (buildTemplateReport t).program ||
         optTruthy (buildTemplateReport t).timeField ||
         optTruthy (buildTemplateReport t).studentName ||
         optTruthy (buildTemplateReport t).studentId ||
         optTruthy (buildTemplateReport t).courseName ||
         optTruthy (buildTemplateReport t).experimentName ||
         optTruthy (buildTemplateReport t).analysisField ||
         optTruthy (buildTemplateReport t).experimentDate ||
         rawContentTruthy (buildTemplateReport t)) = true)) := by
  refine ⟨?_, ?_, ?_⟩
  · intro h
    unfold parseByTemplate
    rw [h]
  · intro t ts ht hr
    unfold parseByTemplate
    rw [ht]
    dsimp only
    rw [hr]
  · intro t ts ht hr
    obtain ⟨r0, rs, hrows⟩ := List.exists_cons_of_ne_nil hr
    have hred : parseByTemplate doc =
        if hasAnyTemplate (buildTemplateReport t) then some (buildTemplateReport t)
        else none := by
      unfold parseByTemplate
      rw [ht]
      dsimp only
      rw [hrows]
    rw [hred]
    by_cases hh : hasAnyTemplate (buildTemplateReport t) = true
    · rw [if_pos hh]
      constructor
      · intro _
        exact hh
      · intro _
        simp
    · rw [if_neg hh]
      constructor
      · intro hc
        exact absurd rfl hc
      · intro hcontra
        exact absurd hcontra hh

/-- Witness for claim C4: a first table recovering 学院信息 makes the
extractor return a record. -/
theorem claim_C4_witness : parseByTemplate docC4W ≠ none :=
  ((claim_C4_amended docC4W).2.2 tableC4W [] rfl (by decide)).mpr (by decide)

/-! ## Claims C5 and C6: write-back column resolution -/

theorem visibleByTc_mem_not_seen :
    ∀ (l : List (Nat × Cell)) (seen : List Nat) (p : Nat × Cell),
      p ∈ visibleByTc l seen → seen.contains p.2.tc = false := by
  intro l
  induction l with
  | nil =>
    intro seen p hp
    simp [visibleByTc] at hp
  | cons q rest ih =>
    intro seen p hp
    unfold visibleByTc at hp
    by_cases hq : seen.contains q.2.tc
    · rw [if_pos hq] at hp
      exact ih seen p hp
    · rw [if_neg hq] at hp
      rcases List.mem_cons.mp hp with h | h
      · subst h
        exact Bool.eq_false_iff.mpr hq
      · have h2 := ih _ p h
        simp only [List.contains_cons, Bool.or_eq_false_iff] at h2
        exact h2.2

theorem visibleByTc_two_distinct :
    ∀ (l : List (Nat × Cell)) (seen : List Nat) (p q : Nat × Cell)
      (rest : List (Nat × Cell)),
      visibleByTc l seen = p :: q :: rest → q.2.tc ≠ p.2.tc := by
  intro l
  induction l with
  | nil =>
    intro seen p q rest h
    simp [visibleByTc] at h
  | cons x xs ih =>
    intro seen p q rest h
    unfold visibleByTc at h
    by_cases hx : seen.contains x.2.tc
    · rw [if_pos hx] at h
      exact ih seen p q rest h
    · rw [if_neg hx] at h
      injection h with h1 h2
      subst h1
      have hq : q ∈ visibleByTc xs (x.2.tc :: seen) := by
        rw [h2]
        exact List.mem_cons_self _ _
      have hns := visibleByTc_mem_not_seen _ _ _ hq
      intro he
      rw [he] at hns
      simp at hns

/-- Claim C5: for every table row that collapses to exactly two logical
columns with the grade label matching the visible cell at index i, the
writer's value-cell resolution picks the OTHER logical column 1 - i — the
following column when the label is first, the preceding one via the enabled
prefer-previous fallback when the label is last — and the picked cell never
shares the underlying cell identity with the matched label cell, so the
label cell itself is never mutated. -/
theorem claim_C5_writeback_resolution (row : Row) (visIdx : Nat)
    (hlen : (uniqueVisible row.cells).length = 2)
    (hmatch : firstMatchVis row "成绩" = some visIdx) :
    findRowValueIdx row "成绩" true =
      ((uniqueVisible row.cells).get? (1 - visIdx)).map Prod.fst ∧
    1 - visIdx ≠ visIdx ∧
    ∀ pm pt, (uniqueVisible row.cells).get? visIdx = some pm →
      (uniqueVisible row.cells).get? (1 - visIdx) = some pt →
      pt.2.tc ≠ pm.2.tc := by
  obtain ⟨a, b, hab⟩ := List.length_eq_two.mp hlen
  have hdist : b.2.tc ≠ a.2.tc := visibleByTc_two_distinct _ _ _ _ _ hab
  unfold firstMatchVis at hmatch
  rw [hab] at hmatch
  unfold findRowValueIdx firstMatchVis
  rw [hab]
  by_cases ha : cellMatchesLabel a.2 "成绩"
  · have h0 : visIdx = 0 := by
      unfold firstMatchVisAux at hmatch
      rw [if_pos ha] at hmatch
      exact (Option.some.injEq _ _ ▸ hmatch.symm :)
    subst h0
    refine ⟨?_, by omega, ?_⟩
    · simp [firstMatchVisAux, ha]
    · intro pm pt hpm hpt
      simp at hpm hpt
      rw [← hpm, ← hpt]
      exact hdist
  · by_cases hb : cellMatchesLabel b.2 "成绩"
    · have h1 : visIdx = 1 := by
        unfold firstMatchVisAux at hmatch
        rw [if_neg ha] at hmatch
        unfold firstMatchVisAux at hmatch
        rw [if_pos hb] at hmatch
        exact (Option.some.injEq _ _ ▸ hmatch.symm :)
      subst h1
      refine ⟨?_, by omega, ?_⟩
      · simp [firstMatchVisAux, ha, hb]
      · intro pm pt hpm hpt
        simp at hpm hpt
        rw [← hpm, ← hpt]
        exact hdist.symm
    · exfalso
      unfold firstMatchVisAux at hmatch
      rw [if_neg ha] at hmatch
      unfold firstMatchVisAux at hmatch
      rw [if_neg hb] at hmatch
      unfold firstMatchVisAux at hmatch
      exact Option.noConfusion hmatch

/-- Witness for claim C5 at a concrete two-column row with the grade label
in the first logical column. -/
theorem claim_C5_witness :
    findRowValueIdx rowC5 "成绩" true =
      ((uniqueVisible rowC5.cells).get? (1 - 0)).map Prod.fst ∧
    (1 - 0 : Nat) ≠ 0 :=
  ⟨(claim_C5_writeback_resolution rowC5 0 (by decide) (by decide)).1,
   (claim_C5_writeback_resolution rowC5 0 (by decide) (by decide)).2.1⟩

/-- Claim C6 fails on the code: with the date label in the last of two
logical columns (and the prefer-previous flag disabled for the date), the
catch-all branch `target_vis_idx = 0` selects the first logical column —
which IS the column preceding the label — so the writer does write the
date there. -/
theorem claim_C6_counterexample :
    firstMatchVis rowC6 "日期" = some 1 ∧
    findRowValueIdx rowC6 "日期" false = some 0 :=
  ⟨rfl, rfl⟩

/-- Claim C6 amended: for the date label the prefer-previous FLAG is indeed
disabled, but when the date label occupies the last of two logical columns
the default branch still resolves the value cell to visible column 0, the
column preceding the label, and the writer writes the date there. -/
theorem claim_C6_amended (row : Row)
    (hlen : (uniqueVisible row.cells).length = 2)
    (hmatch : firstMatchVis row "日期" = some 1) :
    findRowValueIdx row "日期" false =
      ((uniqueVisible row.cells).get? 0).map Prod.fst := by
  unfold findRowValueIdx
  have h2 : ¬((uniqueVisible row.cells).length ≠ 2) := by
    rw [hlen]
    omega
  rw [if_neg h2, hmatch, hlen]
  norm_num

/-- Witness for claim C6's amended statement at the concrete row. -/
theorem claim_C6_witness :
    findRowValueIdx rowC6 "日期" false =
      ((uniqueVisible rowC6.cells).get? 0).map Prod.fst :=
  claim_C6_amended rowC6 (by decide) (by decide)

/-! ## Claim C7: segmentation retry bound and exhaustion errors -/

theorem clamp_bounds (a : Int) :
    1 ≤ (max 1 (min a 5)).toNat ∧ (max 1 (min a 5)).toNat ≤ 5 := by
  omega

theorem segmentLoop_fail_last_list (expected n : Nat) :
    ∀ (l : List AttemptOutcome) (last : Option Nat),
      (∀ o ∈ l, isSuccess o = false) →
      l.getLast? = some (.failParsedList n) →
      segmentLoop expected l last = .error (.countMismatch expected n) := by
  intro l
  induction l with
  | nil =>
    intro last _ hlast
    simp at hlast
  | cons o rest ih =>
    intro last hall hlast
    cases rest with
    | nil =>
      have ho : o = .failParsedList n := by simpa using hlast
      subst ho
      rfl
    | cons o2 rest2 =>
      have hlast2 : (o2 :: rest2).getLast? = some (.failParsedList n) := by
        rw [List.getLast?_cons_cons] at hlast
        exact hlast
      have hall2 : ∀ x ∈ o2 :: rest2, isSuccess x = false :=
        fun x hx => hall x (List.mem_cons_of_mem _ hx)
      have ho := hall o (List.mem_cons_self _ _)
      cases o with
      | success items => simp [isSuccess] at ho
      | failParsedList m =>
        show segmentLoop expected (o2 :: rest2) (some m) = _
        exact ih (some m) hall2 hlast2
      | failNotList =>
        show segmentLoop expected (o2 :: rest2) none = _
        exact ih none hall2 hlast2
      | netFail =>
        show segmentLoop expected (o2 :: rest2) none = _
        exact ih none hall2 hlast2

theorem segmentLoop_fail_last_other (expected : Nat) :
    ∀ (l : List AttemptOutcome) (last : Option Nat),
      (∀ o ∈ l, isSuccess o = false) →
      (l.getLast? = some .failNotList ∨ l.getLast? = some .netFail) →
      segmentLoop expected l last = .error .unparsable := by
  intro l
  induction l with
  | nil =>
    intro last _ hlast
    rcases hlast with h | h <;> simp at h
  | cons o rest ih =>
    intro last hall hlast
    cases rest with
    | nil =>
      have ho : o = .failNotList ∨ o = .netFail := by
        rcases hlast with h | h
        · exact Or.inl (by simpa using h)
        · exact Or.inr (by simpa using h)
      rcases ho with rfl | rfl <;> rfl
    | cons o2 rest2 =>
      have hlast2 : (o2 :: rest2).getLast? = some .failNotList ∨
          (o2 :: rest2).getLast? = some .netFail := by
        rcases hlast with h | h
        · exact Or.inl (by rw [List.getLast?_cons_cons] at h; exact h)
        · exact Or.inr (by rw [List.getLast?_cons_cons] at h; exact h)
      have hall2 : ∀ x ∈ o2 :: rest2, isSuccess x = false :=
        fun x hx => hall x (List.mem_cons_of_mem _ hx)
      have ho := hall o (List.mem_cons_self _ _)
      cases o with
      | success items => simp [isSuccess] at ho
      | failParsedList m =>
        show segmentLoop expected (o2 :: rest2) (some m) = _
        exact ih (some m) hall2 hlast2
      | failNotList =>
        show segmentLoop expected (o2 :: rest2) none = _
        exact ih none hall2 hlast2
      | netFail =>
        show segmentLoop expected (o2 :: rest2) none = _
        exact ih none hall2 hlast2

theorem mapRange_getLast (c : Nat) (hc : 1 ≤ c) (f : Nat → AttemptOutcome) :
    ((List.range c).map f).getLast? = some (f (c - 1)) := by
  rw [List.getLast?_eq_getElem?]
  have hlen : ((List.range c).map f).length = c := by simp
  rw [hlen]
  rw [List.getElem?_map]
  rw [List.getElem?_range (by omega)]
  rfl

/-- Claim C7: the LLM-assisted segmenter's retry count is read from
configuration with default 3 and always clamped into 1..5; when every
attempt fails, the raised error carries the expected count together with
the last observed parsed count whenever a list was parsed on the last
attempt, and the distinct no-list error is raised otherwise. -/
theorem claim_C7_segment_retry (expected : Nat) (envRetry : Option String)
    (outcomes : Nat → AttemptOutcome) :
    (1 ≤ clampAttempts envRetry ∧ clampAttempts envRetry ≤ 5) ∧
    clampAttempts none = 3 ∧
    ((∀ i, i < clampAttempts envRetry → isSuccess (outcomes i) = false) →
      (∀ n, outcomes (clampAttempts envRetry - 1) = .failParsedList n →
        segment_items_from_content expected envRetry outcomes =
          .error (.countMismatch expected n)) ∧
      ((outcomes (clampAttempts envRetry - 1) = .failNotList ∨
        outcomes (clampAttempts envRetry - 1) = .netFail) →
        segment_items_from_content expected envRetry outcomes =
          .error .unparsable)) := by
  have hbounds : 1 ≤ clampAttempts envRetry ∧ clampAttempts envRetry ≤ 5 :=
    clamp_bounds _
  refine ⟨hbounds, by decide, ?_⟩
  intro hfail
  have hall : ∀ o ∈ (List.range (clampAttempts envRetry)).map outcomes,
      isSuccess o = false := by
    intro o ho
    obtain ⟨i, hi, rfl⟩ := List.mem_map.mp ho
    exact hfail i (List.mem_range.mp hi)
  have hlast := mapRange_getLast (clampAttempts envRetry) hbounds.1 outcomes
  constructor
  · intro n hn
    exact segmentLoop_fail_last_list expected n _ none hall (by rw [hlast, hn])
  · intro hn
    refine segmentLoop_fail_last_other expected _ none hall ?_
    rcases hn with h | h
    · exact Or.inl (by rw [hlast, h])
    · exact Or.inr (by rw [hlast, h])

/-- Witness for claim C7: the configured value 10 is clamped to 5 attempts,
and five non-list failures raise the distinct no-list error. -/
theorem claim_C7_witness :
    clampAttempts (some "10") = 5 ∧
    segment_items_from_content 4 (some "10") (fun _ => .failNotList) =
      .error .unparsable :=
  ⟨by decide,
   ((claim_C7_segment_retry 4 (some "10") (fun _ => .failNotList)).2.2
      (fun _ _ => rfl)).2 (Or.inl rfl)⟩

/-! ## Claim C8: extraction never segments -/

theorem setCanon_items (r : ReportDocument) (f : CanonField) (v : String) :
    (setCanon r f v).content_items = r.content_items := by
  cases f <;> rfl

theorem applyOptField_items (r : ReportDocument) (f : Option CanonField)
    (v : String) :
    (applyOptField r f v).content_items = r.content_items := by
  cases f with
  | none => rfl
  | some f => exact setCanon_items r f (pyStrip v)

theorem templateCellAssign_items (rowIdx : Nat) (a : Option Nat)
    (r : ReportDocument) (gsi : Nat) (text : String) :
    (templateCellAssign rowIdx a r gsi text).content_items = r.content_items := by
  unfold templateCellAssign
  rw [applyOptField_items, applyOptField_items]

theorem foldl_preserves {α β : Type} (P : α → Prop) (f : α → β → α)
    (h : ∀ a b, P a → P (f a b)) :
    ∀ (l : List β) (a : α), P a → P (l.foldl f a) := by
  intro l
  induction l with
  | nil =>
    intro a ha
    exact ha
  | cons x xs ih =>
    intro a ha
    exact ih _ (h _ _ ha)

theorem templateProcessRow_items (st : TState) (p : Nat × Row)
    (h : st.report.content_items = []) :
    (templateProcessRow st p).report.content_items = [] := by
  unfold templateProcessRow
  have hrep : ((spanWalk p.2.cells).enum.foldl
      (fun r q => templateCellAssign p.1 st.analysRowIdx r q.1 (pyStrip q.2.text))
      st.report).content_items = [] := by
    refine foldl_preserves (fun (r : ReportDocument) => r.content_items = [])
      (fun (r : ReportDocument) (q : Nat × Cell) =>
        templateCellAssign p.1 st.analysRowIdx r q.1 (pyStrip q.2.text))
      (fun r q hq => ?_) _ _ h
    show (templateCellAssign p.1 st.analysRowIdx r q.1 (pyStrip q.2.text)).content_items = []
    rw [templateCellAssign_items]
    exact hq
  dsimp only
  split_ifs <;> exact hrep

theorem templateWalk_items (table : Table) :
    (templateWalk table).report.content_items = [] :=
  foldl_preserves (fun st => st.report.content_items = []) _
    (fun st p hp => templateProcessRow_items st p hp) _ _ rfl

theorem buildTemplateReport_items (table : Table) :
    (buildTemplateReport table).content_items = [] := by
  unfold buildTemplateReport
  dsimp only
  split_ifs <;> exact templateWalk_items table

theorem setFieldByLabel_items (r : ReportDocument) (label v : String) :
    (setFieldByLabel r label v).content_items = r.content_items := by
  unfold setFieldByLabel
  rcases hc : canonOfLabel label with _ | f
  · rfl
  · exact setCanon_items r f v

theorem fallbackStep_items (acc : ReportDocument × List String) (row : Row)
    (h : acc.1.content_items = []) :
    (fallbackStep acc row).1.content_items = [] := by
  unfold fallbackStep
  rcases he : extractRowLabelValue row with _ | ⟨label, value⟩
  · exact h
  · dsimp only
    split_ifs <;>
      first
        | exact h
        | (show (setFieldByLabel acc.1 label value).content_items = []
           rw [setFieldByLabel_items]
           exact h)

theorem fallbackParseDoc_items (doc : Docx) :
    (fallbackParseDoc doc).content_items = [] := by
  have hacc : (doc.tables.foldl (fun a t => t.rows.foldl fallbackStep a)
      (initReport, [])).1.content_items = [] :=
    foldl_preserves (fun (a : ReportDocument × List String) =>
        a.1.content_items = []) _
      (fun a t ha =>
        foldl_preserves (fun (a : ReportDocument × List String) =>
            a.1.content_items = []) _
          (fun a' r ha' => fallbackStep_items a' r ha') _ _ ha) _ _ rfl
  exact hacc

theorem parseByTemplate_items (doc : Docx) (r : ReportDocument)
    (hp : parseByTemplate doc = some r) : r.content_items = [] := by
  obtain ⟨tables⟩ := doc
  unfold parseByTemplate at hp
  cases tables with
  | nil => exact Option.noConfusion hp
  | cons t ts =>
    dsimp only at hp
    rcases hrw : t.rows with _ | ⟨r0, rs⟩
    · rw [hrw] at hp
      exact Option.noConfusion hp
    · rw [hrw] at hp
      dsimp only at hp
      by_cases hh : hasAnyTemplate (buildTemplateReport t) = true
      · rw [if_pos hh] at hp
        injection hp with hp
        rw [← hp]
        exact buildTemplateReport_items t
      · rw [if_neg hh] at hp
        exact Option.noConfusion hp

/-- Claim C8: extraction never segments — for every input document,
`parse_docx_to_report` (whether the positional template matches or the
label-scan fallback runs) returns a record whose content_items list is
empty; any recovered experiment-content text lives only in the raw
实验内容原文 field. -/
theorem claim_C8_no_segmentation (doc : Docx) :
    (parseDocxToReport doc).content_items = [] := by
  unfold parseDocxToReport
  rcases hp : parseByTemplate doc with _ | r
  · exact fallbackParseDoc_items doc
  · exact parseByTemplate_items doc r hp

end WordReportCheck
